import Mathlib

/-!
Verification development for the photomap metadata-extraction pipeline
(`src/geo_utils.py` and `src/exif_loader.py`).

Modelling conventions:
* Python floats are modelled by `ℚ` (exact rationals); the source's numeric
  comparisons and arithmetic carry over directly.
* Python `None` is `Option.none`; fallible computations return `Option`.
* A Python exception escaping a region of code is modelled by `Except Unit`;
  the source's `try/except` blocks become explicit catches.
* Parsed JSON documents are modelled by the `PyVal` inductive; JSON `null`
  becomes `PyVal.pyNone`, matching Python's `json.loads` which maps `null`
  to `None`.
* `float(s)` on strings is modelled by a decimal parser handling an optional
  sign, integer digits and an optional fractional part (exponents and
  `inf`/`nan` spellings are abstracted away; no claim depends on them).
* `str(x)` on non-string values is abstracted by `pyStr` (claims only ever
  observe `str` applied to strings, where it is the identity).
-/

namespace Photomap

/-- Characters Python's `str.strip()` removes (common whitespace). -/
def pyWhitespace (c : Char) : Bool :=
  c = ' ' || c = '\t' || c = '\n' || c = '\r' || c = '\x0b' || c = '\x0c'

/-- Strip whitespace from both ends of a character list (Python `strip`). -/
def stripChars (l : List Char) : List Char :=
  ((l.dropWhile pyWhitespace).reverse.dropWhile pyWhitespace).reverse

/-- Value of a list of decimal digit characters. -/
def digitsNat (l : List Char) : Nat :=
  l.foldl (fun a c => a * 10 + (c.toNat - 48)) 0

/-- Parse an unsigned decimal literal (digits, optionally with a fractional
part after a dot), as Python `float` accepts.  Empty input fails, as does
a lone dot. -/
def parseUnsignedFloat (l : List Char) : Option ℚ :=
  match l.span (fun c => c.isDigit) with
  | (ds, []) =>
      if ds.isEmpty then Option.none else some ((digitsNat ds : ℚ))
  | (ds, '.' :: fs) =>
      if fs.all (fun c => c.isDigit) && !(ds.isEmpty && fs.isEmpty) then
        some ((digitsNat ds : ℚ) + (digitsNat fs : ℚ) / (10 : ℚ) ^ fs.length)
      else Option.none
  | _ => Option.none

/-- Model of Python `float(s)` for strings: strip whitespace, optional sign,
then an unsigned decimal literal.  `Option.none` models a raised
`ValueError`. -/
def parsePyFloat (s : String) : Option ℚ :=
  match stripChars s.toList with
  | '-' :: rest => (parseUnsignedFloat rest).map (fun q => -q)
  | '+' :: rest => parseUnsignedFloat rest
  | l => parseUnsignedFloat l

/-- Python `s.strip()` on a `String`. -/
def pyStrip (s : String) : String := String.mk (stripChars s.toList)

/-- Python `s.split(c)` for a single-character separator. -/
def splitOnChar (c : Char) (l : List Char) : List (List Char) :=
  match l with
  | [] => [[]]
  | x :: xs =>
      let r := splitOnChar c xs
      if x = c then [] :: r
      else
        match r with
        | h :: t => (x :: h) :: t
        | [] => [[x]]

/-- `to_float` from `exif_loader._ratios_to_decimal`: if the string contains
a slash, split into numerator/denominator and divide (a zero denominator
raises `ZeroDivisionError`, modelled by `Option.none`, which the enclosing
`try` of `_ratios_to_decimal` turns into a total failure); otherwise parse
as a plain float. -/
def to_float (s : String) : Option ℚ :=
  if s.toList.any (fun c => c = '/') then
    match splitOnChar '/' s.toList with
    | [numC, denC] =>
        match parsePyFloat (String.mk numC), parsePyFloat (String.mk denC) with
        | some n, some d => if d = 0 then Option.none else some (n / d)
        | _, _ => Option.none
    | _ => Option.none
  else parsePyFloat s

/-- Sequence `to_float` over the parts list, failing if any element fails
(models the list comprehension in `_ratios_to_decimal`, whose first raised
exception aborts the whole conversion). -/
def to_floats : List String → Option (List ℚ)
  | [] => some []
  | s :: rest =>
      match to_float s, to_floats rest with
      | some q, some l => some (q :: l)
      | _, _ => Option.none

/-- `_ratios_to_decimal` from `exif_loader.py`: convert the stringified ratio
parts to floats, unpack exactly three components (Python tuple unpacking
raises on any other length), combine as degrees + minutes/60 + seconds/3600
and negate for `S`/`W` references.  Any failure inside the `try` yields
`Option.none`. -/
def ratios_to_decimal (parts : List String) (ref : Option String) : Option ℚ :=
  match to_floats parts with
  | some [deg, minute, second] =>
      let val := deg + minute / 60 + second / 3600
      some (if ref = some "S" ∨ ref = some "W" then -val else val)
  | _ => Option.none

/-- `dms_to_decimal` from `geo_utils.py`: divide each `(num, den)` pair
(a zero denominator raises, modelled by the `any` guard), read the first
three components, combine and negate for `S`/`W`.  A list shorter than
three components raises `IndexError`, yielding `Option.none`; extra
components are ignored. -/
def dms_to_decimal (dms : List (ℚ × ℚ)) (ref : Option String) : Option ℚ :=
  if dms.any (fun p => p.2 == 0) then Option.none
  else
    match dms.map (fun p => p.1 / p.2) with
    | deg :: minute :: second :: _ =>
        let v := deg + minute / 60 + second / 3600
        some (if ref = some "S" ∨ ref = some "W" then -v else v)
    | _ => Option.none

/-- Parsed JSON data, as produced by Python's `json.loads`: `null` becomes
Python `None` (`pyNone`); objects become dicts modelled as association
lists with distinct keys. -/
inductive PyVal where
  | pyNone : PyVal
  | bool : Bool → PyVal
  | num : ℚ → PyVal
  | str : String → PyVal
  | list : List PyVal → PyVal
  | dict : List (String × PyVal) → PyVal

/-- Python `d.get(k)` on a dict: `Option.none` models an absent key. -/
def dictGet (d : List (String × PyVal)) (k : String) : Option PyVal :=
  match d.find? (fun p => p.1 == k) with
  | some p => some p.2
  | Option.none => Option.none

/-- Python `d.get(k)` where an absent key yields Python `None`. -/
def dictGetD (d : List (String × PyVal)) (k : String) : PyVal :=
  (dictGet d k).getD PyVal.pyNone

/-- Python truthiness of a value, as used by the `or` operator. -/
def pyTruthy : PyVal → Bool
  | PyVal.pyNone => false
  | PyVal.bool b => b
  | PyVal.num q => q != 0
  | PyVal.str s => s != ""
  | PyVal.list xs => !xs.isEmpty
  | PyVal.dict d => !d.isEmpty

/-- Python `a or b`: the first operand if truthy, else the second. -/
def pyOr (a b : PyVal) : PyVal := if pyTruthy a then a else b

/-- Python `str(x)`.  On strings it is the identity; renderings of the
other shapes are abstractions (no claim observes them). -/
def pyStr : PyVal → String
  | PyVal.str s => s
  | PyVal.pyNone => "None"
  | PyVal.bool true => "True"
  | PyVal.bool false => "False"
  | PyVal.num q => toString q
  | PyVal.list _ => "<list>"
  | PyVal.dict _ => "<dict>"

/-- Python `float(x)` on a JSON value: numbers are themselves, booleans
are 0/1, strings are parsed; lists/dicts/None raise (`Option.none`). -/
def pyFloat : PyVal → Option ℚ
  | PyVal.num q => some q
  | PyVal.bool b => some (if b then 1 else 0)
  | PyVal.str s => parsePyFloat s
  | _ => Option.none

/-- One coordinate inside `pick_latlon`:
`lat = float(lat) if lat is not None else None`.  An absent key or JSON
`null` is Python `None` and yields `Option.none` without calling `float`;
otherwise a failed `float` raises (`Except.error`). -/
def coerce_coord : Option PyVal → Except Unit (Option ℚ)
  | Option.none => Except.ok Option.none
  | some PyVal.pyNone => Except.ok Option.none
  | some v =>
      match pyFloat v with
      | some q => Except.ok (some q)
      | Option.none => Except.error ()

/-- `pick_latlon` from `_read_takeout_sidecar`: read `latitude` and
`longitude` from a dict and coerce both to float inside one `try`; if
either coercion raises, both become `None`. -/
def pick_latlon (d : List (String × PyVal)) : Option ℚ × Option ℚ :=
  match coerce_coord (dictGet d "latitude"), coerce_coord (dictGet d "longitude") with
  | Except.ok la, Except.ok lo => (la, lo)
  | _, _ => (Option.none, Option.none)

/-- The key priority order of the sidecar geo search. -/
def sidecar_keys : List String := ["geoDataExif", "geoData", "location"]

/-- The `for key in ("geoDataExif", "geoData", "location")` loop: starting
from `(None, None)`, each key whose value is a dict overwrites the state
with that dict's `pick_latlon`; the loop breaks at the first complete
pair. -/
def search_latlon_aux (data : List (String × PyVal)) :
    List String → Option ℚ × Option ℚ → Option ℚ × Option ℚ
  | [], st => st
  | k :: ks, st =>
      match dictGet data k with
      | some (PyVal.dict gd) =>
          let st2 := pick_latlon gd
          if st2.1.isSome && st2.2.isSome then st2
          else search_latlon_aux data ks st2
      | _ => search_latlon_aux data ks st

/-- The sidecar geo-key search over the fixed priority list. -/
def search_latlon (data : List (String × PyVal)) : Option ℚ × Option ℚ :=
  search_latlon_aux data sidecar_keys (Option.none, Option.none)

/-- The datetime extraction of `_read_takeout_sidecar`: prefer
`photoTakenTime.formatted` (falling back through Python `or` to
`.timestamp`) when `photoTakenTime` is a dict, else top-level
`creationTime or creationTimestamp`. -/
def extract_dt_val (data : List (String × PyVal)) : PyVal :=
  match dictGet data "photoTakenTime" with
  | some (PyVal.dict ptt) => pyOr (dictGetD ptt "formatted") (dictGetD ptt "timestamp")
  | _ => pyOr (dictGetD data "creationTime") (dictGetD data "creationTimestamp")

/-- The triple `_read_takeout_sidecar` would return for one parsed dict:
the geo-key search result plus `str(dt) if dt is not None else None`. -/
def sidecar_dict_result (data : List (String × PyVal)) :
    Option ℚ × Option ℚ × Option String :=
  let ll := search_latlon data
  let dtv := extract_dt_val data
  (ll.1, ll.2,
    match dtv with
    | PyVal.pyNone => Option.none
    | v => some (pyStr v))

/-- The state of one sidecar candidate file on disk: missing, present but
failing `json.loads`, or parsed to a value. -/
inductive CandidateState where
  | absent : CandidateState
  | parseError : CandidateState
  | parsed : PyVal → CandidateState

/-- `_read_takeout_sidecar`, iterating over the candidate list: missing
and unparsable candidates are skipped (`continue`), as are parsed values
that are not dicts or whose extraction reaches neither a complete
coordinate pair nor a non-None datetime (no `return` is executed); the
first candidate passing the `(lat and lon) or dt` test returns its
triple; exhaustion returns `(None, None, None)`. -/
def read_takeout_sidecar : List CandidateState → Option ℚ × Option ℚ × Option String
  | [] => (Option.none, Option.none, Option.none)
  | c :: rest =>
      match c with
      | CandidateState.parsed (PyVal.dict data) =>
          let r := sidecar_dict_result data
          if (r.1.isSome && r.2.1.isSome) || r.2.2.isSome then r
          else read_takeout_sidecar rest
      | _ => read_takeout_sidecar rest

/-- The two sidecar filename candidates, in the order the source builds
them: `path.with_suffix(path.suffix + ".json")` (the original name with
`.json` appended) then `path.with_suffix(".json")` (extension replaced),
for a path split as `stem ++ suffix`. -/
def sidecar_candidates (stem suffix : String) : List String :=
  [stem ++ suffix ++ ".json", stem ++ ".json"]

/-- The `PhotoMeta` dataclass from `types_.py` (the spec's PhotoRecord).
`extra` is a string-to-string dict modelled as an association list. -/
structure PhotoMeta where
  path : String
  lat : Option ℚ
  lon : Option ℚ
  datetime : Option String
  make : Option String
  model : Option String
  extra : List (String × String)
deriving DecidableEq

/-- `str(tags.get(key, "")) or None`: the empty string is falsy and
becomes `None`. -/
def strOrNone (s : String) : Option String :=
  if s = "" then Option.none else some s

/-- The EXIF tag values `_exifread_extract` reads from
`exifread.process_file`.  A GPS coordinate tag is present (`some`) or
absent; its values are the stringified ratio components.  The reference
and make/model fields hold `str(tags.get(key, ""))` (so `""` when the
tag is absent); the datetime fields are `some` exactly when the key is
in `tags`. -/
structure ExifTags where
  gpsLatitude : Option (List String)
  gpsLatitudeRef : String
  gpsLongitude : Option (List String)
  gpsLongitudeRef : String
  exifDateTimeOriginal : Option String
  imageDateTime : Option String
  imageMake : String
  imageModel : String

/-- The body of `_exifread_extract` after a successful
`exifread.process_file`: coordinates are converted only when both GPS
value tags are present; the datetime loop prefers
`EXIF DateTimeOriginal` over `Image DateTime`; make/model and the
references map empty strings to `None` (references are stripped
first). -/
def exifread_body (t : ExifTags) (path : String) : PhotoMeta :=
  let latRef := strOrNone (pyStrip t.gpsLatitudeRef)
  let lonRef := strOrNone (pyStrip t.gpsLongitudeRef)
  let coords :=
    match t.gpsLatitude, t.gpsLongitude with
    | some latVals, some lonVals =>
        (ratios_to_decimal latVals latRef, ratios_to_decimal lonVals lonRef)
    | _, _ => ((Option.none : Option ℚ), (Option.none : Option ℚ))
  let dt :=
    match t.exifDateTimeOriginal with
    | some s => some s
    | Option.none => t.imageDateTime
  { path := path, lat := coords.1, lon := coords.2, datetime := dt,
    make := strOrNone t.imageMake, model := strOrNone t.imageModel, extra := [] }

/-- The per-photo environment `read_photo_meta` runs in: the outcome of
the raw header parse (an `Except.error` is an exception raised inside
`_exifread_extract`, e.g. an unreadable file), the sidecar files on disk
keyed by filename, and the outcome of the raw full decode (an
`Except.error` covers both `UnidentifiedImageError` and any other
exception in `_pillow_extract`). -/
structure Env where
  exifreadRaw : Except Unit ExifTags
  fs : String → CandidateState
  pillowRaw : Except Unit PhotoMeta

/-- `_exifread_extract`: its `try/except` catches every exception and
returns `None`; otherwise the tag extraction body runs. -/
def exifread_extract (env : Env) (path : String) : Option PhotoMeta :=
  match env.exifreadRaw with
  | Except.ok t => some (exifread_body t path)
  | Except.error _ => Option.none

/-- `_pillow_extract`: both `except` clauses return `None`. -/
def pillow_extract (env : Env) : Option PhotoMeta :=
  match env.pillowRaw with
  | Except.ok m => some m
  | Except.error _ => Option.none

/-- `_drop_if_zero_coord`: pairs with a `None` component pass through;
a fully present pair is dropped exactly when both magnitudes are below
`1e-9`. -/
def drop_if_zero_coord (lat lon : Option ℚ) : Option ℚ × Option ℚ :=
  match lat, lon with
  | some la, some lo =>
      if |la| < 1 / 1000000000 ∧ |lo| < 1 / 1000000000 then
        (Option.none, Option.none)
      else (some la, some lo)
  | _, _ => (lat, lon)

/-- The sidecar gap-fill statement
`if x is None and y is not None: x = y`. -/
def fill_gap {α : Type} (a b : Option α) : Option α :=
  if a.isNone && b.isSome then b else a

/-- The pillow gap-fill statement `if x is None: x = y`. -/
def fill_if_none {α : Type} (a b : Option α) : Option α :=
  if a.isNone then b else a

/-- Python `d[k] = v` on a string dict: overwrite an existing key in
place, else append. -/
def set_item (d : List (String × String)) (k v : String) : List (String × String) :=
  if d.any (fun p => p.1 == k) then
    d.map (fun p => if p.1 == k then (k, v) else p)
  else d ++ [(k, v)]

/-- Python `base.update(upd)` on string dicts. -/
def dict_update (base upd : List (String × String)) : List (String × String) :=
  upd.foldl (fun acc p => set_item acc p.1 p.2) base

/-- `m.lat if m else None` for an optional record. -/
def get_lat : Option PhotoMeta → Option ℚ
  | some r => r.lat
  | Option.none => Option.none

/-- `m.lon if m else None` for an optional record. -/
def get_lon : Option PhotoMeta → Option ℚ
  | some r => r.lon
  | Option.none => Option.none

/-- `m.datetime if m else None` for an optional record. -/
def get_datetime : Option PhotoMeta → Option String
  | some r => r.datetime
  | Option.none => Option.none

/-- `m.make if m else None` for an optional record. -/
def get_make : Option PhotoMeta → Option String
  | some r => r.make
  | Option.none => Option.none

/-- `m.model if m else None` for an optional record. -/
def get_model : Option PhotoMeta → Option String
  | some r => r.model
  | Option.none => Option.none

/-- The merge logic of `read_photo_meta`, as a pure function of the three
strategy outcomes.  `pm` is the value `_pillow_extract` would return;
it is consulted only inside the fallback branch, whose guard is the
source's literal condition `(lat is None or lon is None) and (m is None)`.
The returned `Bool` records whether that branch ran (i.e. whether the
fallback was invoked). -/
def read_photo_meta_core (m : Option PhotoMeta)
    (s : Option ℚ × Option ℚ × Option String)
    (pm : Option PhotoMeta) (path : String) : PhotoMeta × Bool :=
  let lat := get_lat m
  let lon := get_lon m
  let dt := get_datetime m
  let make := get_make m
  let model := get_model m
  let extra : List (String × String) := []
  let lat := fill_gap lat s.1
  let lon := fill_gap lon s.2.1
  let dt := fill_gap dt s.2.2
  let invoked := (lat.isNone || lon.isNone) && m.isNone
  let st :=
    if invoked then
      match pm with
      | some p =>
          (fill_if_none lat p.lat, fill_if_none lon p.lon,
           fill_if_none dt p.datetime, fill_if_none make p.make,
           fill_if_none model p.model, dict_update extra p.extra)
      | Option.none => (lat, lon, dt, make, model, extra)
    else (lat, lon, dt, make, model, extra)
  let ll := drop_if_zero_coord st.1 st.2.1
  ({ path := path, lat := ll.1, lon := ll.2, datetime := st.2.2.1,
     make := st.2.2.2.1, model := st.2.2.2.2.1, extra := st.2.2.2.2.2 },
   invoked)

/-- `read_photo_meta` for a photo at path `stem ++ suffix`, paired with
the fallback-invocation flag. -/
def read_photo_meta_aux (env : Env) (stem suffix : String) : PhotoMeta × Bool :=
  read_photo_meta_core
    (exifread_extract env (stem ++ suffix))
    (read_takeout_sidecar ((sidecar_candidates stem suffix).map env.fs))
    (pillow_extract env)
    (stem ++ suffix)

/-- `read_photo_meta` from `exif_loader.py`. -/
def read_photo_meta (env : Env) (stem suffix : String) : PhotoMeta :=
  (read_photo_meta_aux env stem suffix).1

/-- `_exifread_extract` with its exception behaviour made explicit: the
internal `try/except` means the call itself never raises. -/
def exifread_extract_exc (env : Env) (path : String) :
    Except Unit (Option PhotoMeta) :=
  Except.ok (exifread_extract env path)

/-- `_read_takeout_sidecar` with its exception behaviour made explicit:
per-candidate `json.loads` failures are already `continue`d over, so the
call never raises. -/
def read_takeout_sidecar_exc (files : List CandidateState) :
    Except Unit (Option ℚ × Option ℚ × Option String) :=
  Except.ok (read_takeout_sidecar files)

/-- `_pillow_extract` with its exception behaviour made explicit: both
`except` clauses return `None`, so the call never raises. -/
def pillow_extract_exc (env : Env) : Except Unit (Option PhotoMeta) :=
  Except.ok (pillow_extract env)

/-- `read_photo_meta` in the exception monad: an uncaught exception in
any strategy would propagate here as `Except.error`. -/
def read_photo_meta_exc (env : Env) (stem suffix : String) :
    Except Unit PhotoMeta := do
  let m ← exifread_extract_exc env (stem ++ suffix)
  let s ← read_takeout_sidecar_exc ((sidecar_candidates stem suffix).map env.fs)
  let pm ← pillow_extract_exc env
  pure (read_photo_meta_core m s pm (stem ++ suffix)).1

/-! ### Helper lemmas -/

theorem fill_gap_none {α : Type} (b : Option α) : fill_gap Option.none b = b := by
  cases b <;> rfl

theorem fill_gap_some {α : Type} (x : α) (b : Option α) :
    fill_gap (some x) b = some x := rfl

theorem fill_if_none_none {α : Type} (b : Option α) :
    fill_if_none Option.none b = b := rfl

theorem fill_if_none_some {α : Type} (x : α) (b : Option α) :
    fill_if_none (some x) b = some x := rfl

/-! ### C4: the zero-coordinate sentinel filter -/

/-- C4: a fully present coordinate pair is replaced by `(None, None)`
exactly when both magnitudes are below `1e-9`; otherwise, and whenever a
component is `None`, the pair passes through `_drop_if_zero_coord`
unchanged. -/
theorem c4_sentinel_filter (a b : ℚ) :
    (|a| < 1 / 1000000000 ∧ |b| < 1 / 1000000000 →
      drop_if_zero_coord (some a) (some b) = (Option.none, Option.none))
    ∧ (¬(|a| < 1 / 1000000000 ∧ |b| < 1 / 1000000000) →
      drop_if_zero_coord (some a) (some b) = (some a, some b))
    ∧ (∀ lon, drop_if_zero_coord Option.none lon = (Option.none, lon))
    ∧ (∀ lat, drop_if_zero_coord lat Option.none = (lat, Option.none)) := by
  refine ⟨fun h => ?_, fun h => ?_, fun lon => ?_, fun lat => ?_⟩
  · simp only [drop_if_zero_coord, if_pos h]
  · simp only [drop_if_zero_coord, if_neg h]
  · cases lon <;> rfl
  · cases lat <;> rfl

/-- Witness for C4 at the spec's own examples: `(0, 0)` is dropped while
`(0, 5)` is kept. -/
theorem c4_sentinel_filter_witness :
    drop_if_zero_coord (some 0) (some 0) = (Option.none, Option.none)
    ∧ drop_if_zero_coord (some 0) (some 5) = (some 0, some 5) := by
  constructor
  · exact (c4_sentinel_filter 0 0).1 (by norm_num)
  · exact (c4_sentinel_filter 0 5).2.1 (by norm_num)

/-! ### C8: DMS-to-decimal conversion -/

/-- C8 (amended): for rational DMS components with nonzero denominators
and a reference among N/S/E/W, `dms_to_decimal` returns exactly
`deg + min/60 + sec/3600`, negated for S/W; whenever that combined sum
is nonnegative and at most a bound, the result's absolute value is at
most the bound.  (The claim's per-component precondition `deg ≤ 90,
min, sec ∈ [0, 60)` does not bound the result by 90; see the
counterexample.) -/
theorem c8_dms_conversion (dn dd mn md sn sd : ℚ) (ref : String)
    (hdd : dd ≠ 0) (hmd : md ≠ 0) (hsd : sd ≠ 0)
    (_href : ref = "N" ∨ ref = "S" ∨ ref = "E" ∨ ref = "W") :
    dms_to_decimal [(dn, dd), (mn, md), (sn, sd)] (some ref)
      = some (if ref = "S" ∨ ref = "W" then -(dn / dd + mn / md / 60 + sn / sd / 3600)
              else dn / dd + mn / md / 60 + sn / sd / 3600)
    ∧ ∀ bound : ℚ, 0 ≤ dn / dd + mn / md / 60 + sn / sd / 3600 →
        dn / dd + mn / md / 60 + sn / sd / 3600 ≤ bound →
        ∀ v, dms_to_decimal [(dn, dd), (mn, md), (sn, sd)] (some ref) = some v →
          |v| ≤ bound := by
  have hany : List.any [(dn, dd), (mn, md), (sn, sd)] (fun p => p.2 == 0) = false := by
    simp [List.any, beq_iff_eq, hdd, hmd, hsd]
  have h1 : dms_to_decimal [(dn, dd), (mn, md), (sn, sd)] (some ref)
      = some (if ref = "S" ∨ ref = "W" then -(dn / dd + mn / md / 60 + sn / sd / 3600)
              else dn / dd + mn / md / 60 + sn / sd / 3600) := by
    simp only [dms_to_decimal, hany, Bool.false_eq_true, if_false, List.map,
      Option.some.injEq]
  refine ⟨h1, fun bound h0 hb v hv => ?_⟩
  rw [h1] at hv
  by_cases hsw : ref = "S" ∨ ref = "W"
  · rw [if_pos hsw] at hv
    cases hv
    rw [abs_neg, abs_of_nonneg h0]
    exact hb
  · rw [if_neg hsw] at hv
    cases hv
    rw [abs_of_nonneg h0]
    exact hb

/-- Witness for C8 at the spec's round-trip example: converting
`51° 30' 26" N` yields a value within `0.01` of `51.5072`, bounded in
magnitude by 90. -/
theorem c8_dms_conversion_witness :
    dms_to_decimal [(51, 1), (30, 1), (26, 1)] (some "N")
      = some (51 / 1 + 30 / 1 / 60 + 26 / 1 / 3600)
    ∧ |(51 / 1 + 30 / 1 / 60 + 26 / 1 / 3600 : ℚ) - 51.5072| ≤ 1 / 100
    ∧ ∀ v, dms_to_decimal [(51, 1), (30, 1), (26, 1)] (some "N") = some v →
        |v| ≤ 90 := by
  have h := c8_dms_conversion 51 1 30 1 26 1 "N"
    (by norm_num) (by norm_num) (by norm_num) (Or.inl rfl)
  refine ⟨?_, by norm_num [abs_le], fun v hv => h.2 90 (by norm_num) (by norm_num) v hv⟩
  have h1 := h.1
  simpa using h1

/-- Counterexample for C8 as stated: the input `90° 30' 0"` satisfies
every per-component precondition of the claim (degrees ≤ 90, minutes and
seconds in `[0, 60)`, nonzero denominators, reference `N`), yet the
conversion yields `90.5`, violating `|value| ≤ 90`. -/
theorem c8_counterexample :
    ((90 : ℚ) ≤ 90 ∧ (0 : ℚ) ≤ 30 ∧ (30 : ℚ) < 60 ∧ (0 : ℚ) ≤ 0 ∧ (0 : ℚ) < 60
      ∧ (1 : ℚ) ≠ 0)
    ∧ dms_to_decimal [(90, 1), (30, 1), (0, 1)] (some "N") = some (181 / 2)
    ∧ ¬((181 : ℚ) / 2 ≤ 90) := by
  refine ⟨by norm_num, ?_, by norm_num⟩
  have h := (c8_dms_conversion 90 1 30 1 0 1 "N"
    (by norm_num) (by norm_num) (by norm_num) (Or.inl rfl)).1
  simp only [show ¬(("N" : String) = "S" ∨ ("N" : String) = "W") by decide,
    if_false] at h
  rw [h]
  norm_num

/-! ### C9: parse failures yield None -/

theorem to_floats_eq_none_of_mem (parts : List String) (s : String)
    (hs : s ∈ parts) (hf : to_float s = Option.none) :
    to_floats parts = Option.none := by
  induction parts with
  | nil => cases hs
  | cons hd tl ih =>
      rcases List.mem_cons.mp hs with h | h
      · subst h
        simp only [to_floats, hf]
      · simp only [to_floats, ih h]
        cases to_float hd <;> rfl

theorem to_floats_length (parts : List String) (l : List ℚ)
    (h : to_floats parts = some l) : l.length = parts.length := by
  induction parts generalizing l with
  | nil =>
      simp only [to_floats, Option.some.injEq] at h
      subst h
      rfl
  | cons hd tl ih =>
      simp only [to_floats] at h
      cases hhd : to_float hd with
      | none => rw [hhd] at h; cases h
      | some q =>
          rw [hhd] at h
          cases htl : to_floats tl with
          | none => rw [htl] at h; cases h
          | some l2 =>
              rw [htl] at h
              cases h
              simp [ih l2 htl]

/-- C9: every parse or arithmetic failure in the DMS conversions — a
component list with fewer than three elements, a zero denominator, or an
unparseable ratio string — yields `None` for the coordinate (both for
`dms_to_decimal` and for `_ratios_to_decimal`). -/
theorem c9_parse_failure_none :
    (∀ (dms : List (ℚ × ℚ)) (ref : Option String),
      dms.length < 3 → dms_to_decimal dms ref = Option.none)
    ∧ (∀ (dms : List (ℚ × ℚ)) (ref : Option String) (p : ℚ × ℚ),
      p ∈ dms → p.2 = 0 → dms_to_decimal dms ref = Option.none)
    ∧ (∀ (parts : List String) (ref : Option String),
      parts.length < 3 → ratios_to_decimal parts ref = Option.none)
    ∧ (∀ (parts : List String) (ref : Option String) (s : String),
      s ∈ parts → to_float s = Option.none →
        ratios_to_decimal parts ref = Option.none) := by
  refine ⟨fun dms ref h => ?_, fun dms ref p hp hz => ?_,
    fun parts ref h => ?_, fun parts ref s hs hf => ?_⟩
  · rcases dms with _ | ⟨a, _ | ⟨b, _ | ⟨c, t⟩⟩⟩
    · rfl
    · simp only [dms_to_decimal, List.map]
      split <;> rfl
    · simp only [dms_to_decimal, List.map]
      split <;> rfl
    · simp only [List.length_cons] at h
      omega
  · have hany : dms.any (fun p => p.2 == 0) = true :=
      List.any_eq_true.mpr ⟨p, hp, by simp [hz]⟩
    simp only [dms_to_decimal, hany, if_true]
  · unfold ratios_to_decimal
    cases hl : to_floats parts with
    | none => rfl
    | some l =>
        have hlen := to_floats_length parts l hl
        rcases l with _ | ⟨a, _ | ⟨b, _ | ⟨c, _ | t⟩⟩⟩ <;> simp_all
  · unfold ratios_to_decimal
    rw [to_floats_eq_none_of_mem parts s hs hf]

/-- Witness for C9: a two-component list, a zero denominator, a short
ratio list, an unparseable ratio string and a zero-denominator ratio
string all yield `None`. -/
theorem c9_parse_failure_none_witness :
    dms_to_decimal [(1, 1), (2, 1)] (some "N") = Option.none
    ∧ dms_to_decimal [(1, 0), (2, 1), (3, 1)] (some "N") = Option.none
    ∧ ratios_to_decimal ["1/1"] (some "N") = Option.none
    ∧ ratios_to_decimal ["abc", "1", "2"] (some "N") = Option.none
    ∧ ratios_to_decimal ["5/0", "1", "2"] (some "N") = Option.none := by
  refine ⟨c9_parse_failure_none.1 _ _ (by norm_num),
    c9_parse_failure_none.2.1 _ _ (1, 0) (by simp) rfl,
    c9_parse_failure_none.2.2.1 _ _ (by norm_num),
    c9_parse_failure_none.2.2.2 _ _ "abc" (by simp) (by rfl),
    c9_parse_failure_none.2.2.2 _ _ "5/0" (by simp) ?_⟩
  simp +decide [to_float, parsePyFloat, stripChars, splitOnChar, parseUnsignedFloat,
    digitsNat, pyWhitespace]

/-! ### C6 and C10: the sidecar geo-key search -/

/-- C6: the sidecar geo-key search tries `geoDataExif`, then `geoData`,
then `location`, and stops at the first key whose dict yields a complete
coordinate pair; in particular when `geoDataExif` yields a complete pair
it is returned regardless of the later keys. -/
theorem c6_sidecar_priority (data : List (String × PyVal)) :
    (∀ d1 a b, dictGet data "geoDataExif" = some (PyVal.dict d1) →
      pick_latlon d1 = (some a, some b) →
        search_latlon data = (some a, some b))
    ∧ (∀ d2 a b, dictGet data "geoDataExif" = Option.none →
      dictGet data "geoData" = some (PyVal.dict d2) →
      pick_latlon d2 = (some a, some b) →
        search_latlon data = (some a, some b))
    ∧ (∀ d3 a b, dictGet data "geoDataExif" = Option.none →
      dictGet data "geoData" = Option.none →
      dictGet data "location" = some (PyVal.dict d3) →
      pick_latlon d3 = (some a, some b) →
        search_latlon data = (some a, some b)) := by
  refine ⟨fun d1 a b h1 h2 => ?_, fun d2 a b h0 h1 h2 => ?_,
    fun d3 a b h0 h1 h2 h3 => ?_⟩
  · simp [search_latlon, sidecar_keys, search_latlon_aux, h1, h2]
  · simp [search_latlon, sidecar_keys, search_latlon_aux, h0, h1, h2]
  · simp [search_latlon, sidecar_keys, search_latlon_aux, h0, h1, h2, h3]

/-- Concrete sidecar object for the C6 witness: `geoDataExif` and
`geoData` both carry complete, different numeric pairs. -/
def c6_data : List (String × PyVal) :=
  [("geoDataExif", PyVal.dict [("latitude", PyVal.num 1), ("longitude", PyVal.num 2)]),
   ("geoData", PyVal.dict [("latitude", PyVal.num 3), ("longitude", PyVal.num 4)])]

/-- Witness for C6: with both `geoDataExif` and `geoData` complete and
different, the search returns the `geoDataExif` pair. -/
theorem c6_sidecar_priority_witness : search_latlon c6_data = (some 1, some 2) :=
  (c6_sidecar_priority c6_data).1
    [("latitude", PyVal.num 1), ("longitude", PyVal.num 2)] 1 2 rfl rfl

/-- C10: a partial result from a higher-priority sidecar key is not
preserved: when `geoDataExif` yields an incomplete pair and `geoData` is
a dict with a complete pair, the search returns `geoData`'s pair
entirely; when `geoData` is also incomplete and `location` is a dict,
the final state is exactly `location`'s `pick_latlon` result. -/
theorem c10_partial_not_preserved (data : List (String × PyVal)) :
    (∀ d1 d2 a b, dictGet data "geoDataExif" = some (PyVal.dict d1) →
      ((pick_latlon d1).1 = Option.none ∨ (pick_latlon d1).2 = Option.none) →
      dictGet data "geoData" = some (PyVal.dict d2) →
      pick_latlon d2 = (some a, some b) →
        search_latlon data = (some a, some b))
    ∧ (∀ d1 d2 d3, dictGet data "geoDataExif" = some (PyVal.dict d1) →
      ((pick_latlon d1).1 = Option.none ∨ (pick_latlon d1).2 = Option.none) →
      dictGet data "geoData" = some (PyVal.dict d2) →
      ((pick_latlon d2).1 = Option.none ∨ (pick_latlon d2).2 = Option.none) →
      dictGet data "location" = some (PyVal.dict d3) →
        search_latlon data = pick_latlon d3) := by
  constructor
  · intro d1 d2 a b h1 hinc h2 h3
    rcases hinc with h | h <;>
      simp [search_latlon, sidecar_keys, search_latlon_aux, h1, h, h2, h3]
  · intro d1 d2 d3 h1 hinc1 h2 hinc2 h3
    rcases hinc1 with h | h <;> rcases hinc2 with h4 | h4 <;>
      simp [search_latlon, sidecar_keys, search_latlon_aux, h1, h, h2, h4, h3]

/-- Concrete sidecar object for the C10 witness: `geoDataExif` holds
only a latitude, `geoData` holds a complete pair. -/
def c10_data : List (String × PyVal) :=
  [("geoDataExif", PyVal.dict [("latitude", PyVal.num 7)]),
   ("geoData", PyVal.dict [("latitude", PyVal.num 1), ("longitude", PyVal.num 2)])]

/-- Witness for C10: the partial latitude 7 from `geoDataExif` is
discarded, not merged: the search returns `geoData`'s pair `(1, 2)`. -/
theorem c10_partial_not_preserved_witness :
    search_latlon c10_data = (some 1, some 2) :=
  (c10_partial_not_preserved c10_data).1
    [("latitude", PyVal.num 7)]
    [("latitude", PyVal.num 1), ("longitude", PyVal.num 2)]
    1 2 rfl (Or.inr rfl) rfl rfl

/-! ### C3: the sidecar candidate loop -/

/-- Whether a sidecar candidate would make `_read_takeout_sidecar`
return: it parsed to a dict and yields a complete coordinate pair or a
non-None datetime.  (Spec-side characterization for the amended C3.) -/
def candidate_yields (c : CandidateState) : Bool :=
  match c with
  | CandidateState.parsed (PyVal.dict data) =>
      let r := sidecar_dict_result data
      (r.1.isSome && r.2.1.isSome) || r.2.2.isSome
  | _ => false

/-- The triple a dict candidate extracts (spec-side characterization for
the amended C3). -/
def candidate_triple (c : CandidateState) : Option ℚ × Option ℚ × Option String :=
  match c with
  | CandidateState.parsed (PyVal.dict data) => sidecar_dict_result data
  | _ => (Option.none, Option.none, Option.none)

theorem read_takeout_sidecar_find (files : List CandidateState) :
    read_takeout_sidecar files =
      (match files.find? candidate_yields with
       | some c => candidate_triple c
       | Option.none => (Option.none, Option.none, Option.none)) := by
  induction files with
  | nil => rfl
  | cons c rest ih =>
      cases c with
      | absent => simpa [read_takeout_sidecar, List.find?, candidate_yields] using ih
      | parseError => simpa [read_takeout_sidecar, List.find?, candidate_yields] using ih
      | parsed v =>
          cases v with
          | dict data =>
              by_cases hy : candidate_yields (CandidateState.parsed (PyVal.dict data)) = true
              · have hy2 := hy
                simp only [candidate_yields] at hy2
                simp [read_takeout_sidecar, List.find?, hy, hy2, candidate_triple]
              · have hy2 : (((sidecar_dict_result data).1.isSome
                    && (sidecar_dict_result data).2.1.isSome)
                    || (sidecar_dict_result data).2.2.isSome) = false := by
                  simpa [candidate_yields] using hy
                simp [read_takeout_sidecar, List.find?, hy, hy2, ih]
          | pyNone => simpa [read_takeout_sidecar, List.find?, candidate_yields] using ih
          | bool b => simpa [read_takeout_sidecar, List.find?, candidate_yields] using ih
          | num q => simpa [read_takeout_sidecar, List.find?, candidate_yields] using ih
          | str s => simpa [read_takeout_sidecar, List.find?, candidate_yields] using ih
          | list xs => simpa [read_takeout_sidecar, List.find?, candidate_yields] using ih

/-- C3 (amended): the sidecar reader checks the two candidate filenames
in order (name with `.json` appended, then extension replaced by
`.json`); nonexistent and unparsable candidates are skipped, and so are
parsed candidates that are not JSON objects or yield neither a complete
coordinate pair nor a datetime; the reader returns the extracted triple
of the first candidate that does yield data, and `(None, None, None)`
when none does. -/
theorem c3_sidecar_reader (env : Env) (stem suffix : String) :
    read_takeout_sidecar ((sidecar_candidates stem suffix).map env.fs) =
      (match ((sidecar_candidates stem suffix).map env.fs).find? candidate_yields with
       | some c => candidate_triple c
       | Option.none => (Option.none, Option.none, Option.none)) :=
  read_takeout_sidecar_find _

/-- Counterexample for C3 as stated: the first candidate parses
successfully to the empty JSON object, whose triple is
`(None, None, None)`, yet the reader does not return that triple — it
moves on and returns the second candidate's datetime. -/
theorem c3_counterexample :
    read_takeout_sidecar
        [CandidateState.parsed (PyVal.dict []),
         CandidateState.parsed (PyVal.dict
           [("photoTakenTime", PyVal.dict [("formatted", PyVal.str "t")])])]
      = (Option.none, Option.none, some "t")
    ∧ sidecar_dict_result [] = (Option.none, Option.none, Option.none)
    ∧ read_takeout_sidecar [CandidateState.parsed (PyVal.dict [])]
      = (Option.none, Option.none, Option.none) := by
  refine ⟨rfl, rfl, rfl⟩

/-! ### C2: the decoder-fallback invocation rule -/

theorem read_photo_meta_aux_snd (env : Env) (stem suffix : String) :
    (read_photo_meta_aux env stem suffix).2 =
      (((fill_gap (get_lat (exifread_extract env (stem ++ suffix)))
          (read_takeout_sidecar ((sidecar_candidates stem suffix).map env.fs)).1).isNone
        || (fill_gap (get_lon (exifread_extract env (stem ++ suffix)))
          (read_takeout_sidecar ((sidecar_candidates stem suffix).map env.fs)).2.1).isNone)
      && (exifread_extract env (stem ++ suffix)).isNone) := rfl

/-- C2: the full-decoder fallback branch of `read_photo_meta` runs if
and only if the fast header parser returned total failure (`None`) and,
after the sidecar merge, latitude or longitude is still `None`; in
particular any fast-parser success — even one carrying only make/model —
prevents the fallback. -/
theorem c2_fallback_invocation (env : Env) (stem suffix : String) :
    ((read_photo_meta_aux env stem suffix).2 = true ↔
      (exifread_extract env (stem ++ suffix) = Option.none ∧
        (fill_gap (get_lat (exifread_extract env (stem ++ suffix)))
            (read_takeout_sidecar ((sidecar_candidates stem suffix).map env.fs)).1
            = Option.none
          ∨ fill_gap (get_lon (exifread_extract env (stem ++ suffix)))
            (read_takeout_sidecar ((sidecar_candidates stem suffix).map env.fs)).2.1
            = Option.none)))
    ∧ ∀ r, exifread_extract env (stem ++ suffix) = some r →
        (read_photo_meta_aux env stem suffix).2 = false := by
  constructor
  · rw [read_photo_meta_aux_snd]
    simp only [Bool.and_eq_true, Bool.or_eq_true, Option.isNone_iff_eq_none]
    constructor
    · rintro ⟨h1, h2⟩
      exact ⟨h2, h1⟩
    · rintro ⟨h1, h2⟩
      exact ⟨h2, h1⟩
  · intro r hr
    rw [read_photo_meta_aux_snd, hr]
    simp

/-- Environment for the C2 witness in which the fast parser raises. -/
def c2_env_fail : Env :=
  { exifreadRaw := Except.error ()
    fs := fun _ => CandidateState.absent
    pillowRaw := Except.error () }

/-- Tags for the C2 witness: make and model present, no GPS tags. -/
def c2_tags_meta : ExifTags :=
  { gpsLatitude := Option.none
    gpsLatitudeRef := ""
    gpsLongitude := Option.none
    gpsLongitudeRef := ""
    exifDateTimeOriginal := Option.none
    imageDateTime := Option.none
    imageMake := "Canon"
    imageModel := "EOS 5D" }

/-- Environment for the C2 witness in which the fast parser succeeds
with make/model but no GPS. -/
def c2_env_meta : Env :=
  { exifreadRaw := Except.ok c2_tags_meta
    fs := fun _ => CandidateState.absent
    pillowRaw := Except.error () }

/-- Witness for C2: a failing fast parse with no sidecar invokes the
fallback; a fast parse carrying only make/model does not, though its
coordinates are missing. -/
theorem c2_fallback_invocation_witness :
    (read_photo_meta_aux c2_env_fail "IMG" ".jpg").2 = true
    ∧ (read_photo_meta_aux c2_env_meta "IMG" ".jpg").2 = false := by
  constructor
  · exact ((c2_fallback_invocation c2_env_fail "IMG" ".jpg").1).mpr ⟨rfl, Or.inl rfl⟩
  · exact (c2_fallback_invocation c2_env_meta "IMG" ".jpg").2
      (exifread_body c2_tags_meta ("IMG" ++ ".jpg")) rfl

/-! ### C5: a complete fast-parser record is never altered -/

/-- C5: when the fast header parser yields a record with latitude,
longitude, datetime, make and model all set, and the coordinate pair is
not the zero sentinel, `read_photo_meta` returns exactly those field
values — for every sidecar filesystem and every decoder-fallback
outcome. -/
theorem c5_complete_fast_record (env : Env) (stem suffix : String)
    (r : PhotoMeta) (a b : ℚ) (d mk mo : String)
    (hm : exifread_extract env (stem ++ suffix) = some r)
    (hla : r.lat = some a) (hlo : r.lon = some b) (hdt : r.datetime = some d)
    (hmk : r.make = some mk) (hmo : r.model = some mo)
    (hs : ¬(|a| < 1 / 1000000000 ∧ |b| < 1 / 1000000000)) :
    read_photo_meta env stem suffix =
      { path := stem ++ suffix, lat := some a, lon := some b,
        datetime := some d, make := some mk, model := some mo, extra := [] } := by
  unfold read_photo_meta read_photo_meta_aux read_photo_meta_core
  rw [hm]
  simp only [get_lat, get_lon, get_datetime, get_make, get_model,
    hla, hlo, hdt, hmk, hmo, fill_gap_some, Option.isNone_some,
    Bool.or_self, Bool.false_and, Bool.and_false, if_false,
    Bool.false_or, Bool.or_false]
  have hdrop : drop_if_zero_coord (some a) (some b) = (some a, some b) := by
    simp only [drop_if_zero_coord, if_neg hs]
  simp [hdrop]

/-- Tags for the C5 witness: a complete record from the fast parser. -/
def c5_tags : ExifTags :=
  { gpsLatitude := some ["10/1", "0/1", "0/1"]
    gpsLatitudeRef := "N"
    gpsLongitude := some ["20/1", "0/1", "0/1"]
    gpsLongitudeRef := "E"
    exifDateTimeOriginal := some "2020:01:01 00:00:00"
    imageDateTime := Option.none
    imageMake := "Canon"
    imageModel := "EOS 5D" }

/-- Environment for the C5 witness: the sidecar and the decoder fallback
would both produce different values, but must not be used. -/
def c5_env : Env :=
  { exifreadRaw := Except.ok c5_tags
    fs := fun _ => CandidateState.parsed (PyVal.dict
      [("geoData", PyVal.dict [("latitude", PyVal.num 3), ("longitude", PyVal.num 4)]),
       ("photoTakenTime", PyVal.dict [("formatted", PyVal.str "other")])])
    pillowRaw := Except.ok
      { path := "IMG.jpg", lat := some 5, lon := some 6,
        datetime := some "1999", make := some "Nikon", model := some "D3",
        extra := [("altitude_m", "12")] } }

/-- Witness for C5: the fast parser's complete record survives untouched
although the sidecar and the decoder fallback carry different values. -/
theorem c5_complete_fast_record_witness :
    read_photo_meta c5_env "IMG" ".jpg" =
      { path := "IMG" ++ ".jpg", lat := some 10, lon := some 20,
        datetime := some "2020:01:01 00:00:00", make := some "Canon",
        model := some "EOS 5D", extra := [] } := by
  refine c5_complete_fast_record c5_env "IMG" ".jpg"
    (exifread_body c5_tags ("IMG" ++ ".jpg")) 10 20
    "2020:01:01 00:00:00" "Canon" "EOS 5D" rfl ?_ ?_ rfl rfl rfl (by norm_num)
  · show (exifread_body c5_tags ("IMG" ++ ".jpg")).lat = some 10
    simp +decide [exifread_body, c5_tags, ratios_to_decimal, to_floats, to_float,
      parsePyFloat, stripChars, splitOnChar, parseUnsignedFloat, digitsNat,
      pyWhitespace, pyStrip, strOrNone]
  · show (exifread_body c5_tags ("IMG" ++ ".jpg")).lon = some 20
    simp +decide [exifread_body, c5_tags, ratios_to_decimal, to_floats, to_float,
      parsePyFloat, stripChars, splitOnChar, parseUnsignedFloat, digitsNat,
      pyWhitespace, pyStrip, strOrNone]

/-! ### C1: the both-or-neither coordinate invariant -/

/-- A coordinate pair that is both absent or both present. -/
def both_or_neither (a b : Option ℚ) : Prop :=
  (a = Option.none ∧ b = Option.none) ∨ (a ≠ Option.none ∧ b ≠ Option.none)

theorem drop_if_zero_coord_some_some (x y : ℚ) :
    drop_if_zero_coord (some x) (some y)
      = if |x| < 1 / 1000000000 ∧ |y| < 1 / 1000000000 then
          ((Option.none : Option ℚ), (Option.none : Option ℚ))
        else (some x, some y) := rfl

theorem both_or_neither_of_drop_some (x y : ℚ) :
    both_or_neither (drop_if_zero_coord (some x) (some y)).1
      (drop_if_zero_coord (some x) (some y)).2 := by
  rw [drop_if_zero_coord_some_some]
  by_cases hc : |x| < 1 / 1000000000 ∧ |y| < 1 / 1000000000
  · rw [if_pos hc]
    exact Or.inl ⟨rfl, rfl⟩
  · rw [if_neg hc]
    exact Or.inr ⟨Option.some_ne_none x, Option.some_ne_none y⟩

theorem both_or_neither_drop (a b : Option ℚ) (h : both_or_neither a b) :
    both_or_neither (drop_if_zero_coord a b).1 (drop_if_zero_coord a b).2 := by
  rcases h with ⟨e1, e2⟩ | ⟨n1, n2⟩
  · subst e1; subst e2
    exact Or.inl ⟨rfl, rfl⟩
  · rcases a with _ | x
    · exact absurd rfl n1
    rcases b with _ | y
    · exact absurd rfl n2
    exact both_or_neither_of_drop_some x y

theorem both_or_neither_fill (a b c d : Option ℚ) (hab : both_or_neither a b)
    (hcd : both_or_neither c d) :
    both_or_neither (fill_gap a c) (fill_gap b d) := by
  rcases hab with ⟨e1, e2⟩ | ⟨n1, n2⟩
  · subst e1; subst e2
    rw [fill_gap_none, fill_gap_none]
    exact hcd
  · rcases a with _ | x
    · exact absurd rfl n1
    rcases b with _ | y
    · exact absurd rfl n2
    rw [fill_gap_some, fill_gap_some]
    exact Or.inr ⟨Option.some_ne_none x, Option.some_ne_none y⟩

theorem core_result_of_some (r : PhotoMeta) (s1 s2 : Option ℚ) (s3 : Option String)
    (pm : Option PhotoMeta) (path : String) :
    (read_photo_meta_core (some r) (s1, s2, s3) pm path).1.lat
        = (drop_if_zero_coord (fill_gap r.lat s1) (fill_gap r.lon s2)).1
      ∧ (read_photo_meta_core (some r) (s1, s2, s3) pm path).1.lon
        = (drop_if_zero_coord (fill_gap r.lat s1) (fill_gap r.lon s2)).2 := by
  simp [read_photo_meta_core, get_lat, get_lon, get_datetime, get_make, get_model]

theorem read_photo_meta_core_bn (m : Option PhotoMeta)
    (s : Option ℚ × Option ℚ × Option String) (pm : Option PhotoMeta) (path : String)
    (h1 : ∀ r, m = some r → both_or_neither r.lat r.lon)
    (h2 : both_or_neither s.1 s.2.1)
    (h3 : ∀ p, pm = some p → both_or_neither p.lat p.lon) :
    both_or_neither (read_photo_meta_core m s pm path).1.lat
      (read_photo_meta_core m s pm path).1.lon := by
  obtain ⟨s1, s2, s3⟩ := s
  simp only at h2
  cases m with
  | none =>
      rcases h2 with ⟨e1, e2⟩ | ⟨n1, n2⟩
      · subst e1; subst e2
        cases pm with
        | none => exact Or.inl ⟨rfl, rfl⟩
        | some p => exact both_or_neither_drop p.lat p.lon (h3 p rfl)
      · rcases s1 with _ | x
        · exact absurd rfl n1
        rcases s2 with _ | y
        · exact absurd rfl n2
        exact both_or_neither_of_drop_some x y
  | some r =>
      have hc := core_result_of_some r s1 s2 s3 pm path
      rw [hc.1, hc.2]
      exact both_or_neither_drop _ _
        (both_or_neither_fill r.lat r.lon s1 s2 (h1 r rfl) (Or.imp id id h2))

/-- C1 (amended): whenever each contributing source yields a coordinate
pair that is both-None-or-both-set — the fast parser's record, the
sidecar triple, and the decoder fallback's record — the `PhotoMeta`
returned by `read_photo_meta` has latitude and longitude both `None` or
both set.  (Without those hypotheses the invariant fails: a source can
yield a partial pair, which `read_photo_meta` preserves; see the
counterexample.) -/
theorem c1_both_or_neither (env : Env) (stem suffix : String)
    (h1 : ∀ r, exifread_extract env (stem ++ suffix) = some r →
      both_or_neither r.lat r.lon)
    (h2 : both_or_neither
      (read_takeout_sidecar ((sidecar_candidates stem suffix).map env.fs)).1
      (read_takeout_sidecar ((sidecar_candidates stem suffix).map env.fs)).2.1)
    (h3 : ∀ p, pillow_extract env = some p → both_or_neither p.lat p.lon) :
    both_or_neither (read_photo_meta env stem suffix).lat
      (read_photo_meta env stem suffix).lon :=
  read_photo_meta_core_bn (exifread_extract env (stem ++ suffix))
    (read_takeout_sidecar ((sidecar_candidates stem suffix).map env.fs))
    (pillow_extract env) (stem ++ suffix) h1 h2 h3

/-- Environment for the C1 witness: every strategy fails. -/
def c1_env_ok : Env :=
  { exifreadRaw := Except.error ()
    fs := fun _ => CandidateState.absent
    pillowRaw := Except.error () }

/-- Witness for C1 (amended), at an environment where all three sources
fail (each trivially yields a both-or-neither pair). -/
theorem c1_both_or_neither_witness :
    both_or_neither (read_photo_meta c1_env_ok "IMG" ".jpg").lat
      (read_photo_meta c1_env_ok "IMG" ".jpg").lon :=
  c1_both_or_neither c1_env_ok "IMG" ".jpg"
    (fun _ h => Option.noConfusion h)
    (Or.inl ⟨rfl, rfl⟩)
    (fun _ h => Option.noConfusion h)

/-- Tags for the C1 counterexample: the latitude ratio strings parse,
but the longitude's first component `0/0` divides by zero, so the
longitude conversion fails while the latitude conversion succeeds. -/
def c1_tags : ExifTags :=
  { gpsLatitude := some ["51/1", "30/1", "26/1"]
    gpsLatitudeRef := "N"
    gpsLongitude := some ["0/0", "0/1", "0/1"]
    gpsLongitudeRef := "E"
    exifDateTimeOriginal := Option.none
    imageDateTime := Option.none
    imageMake := ""
    imageModel := "" }

/-- Environment for the C1 counterexample: the fast parse succeeds with
a partial coordinate pair; there is no sidecar; the decoder fallback is
not reached because the fast parse did not totally fail. -/
def c1_env_bad : Env :=
  { exifreadRaw := Except.ok c1_tags
    fs := fun _ => CandidateState.absent
    pillowRaw := Except.error () }

/-- Counterexample for C1 as stated: `read_photo_meta` returns a record
with latitude present (51.5072…) and longitude `None` — exactly one
coordinate set. -/
theorem c1_counterexample :
    (read_photo_meta c1_env_bad "IMG" ".jpg").lat = some (92713 / 1800)
    ∧ (read_photo_meta c1_env_bad "IMG" ".jpg").lon = Option.none := by
  simp +decide [read_photo_meta, read_photo_meta_aux, read_photo_meta_core,
    exifread_extract, exifread_body, pillow_extract, sidecar_candidates,
    read_takeout_sidecar, ratios_to_decimal, to_floats, to_float, parsePyFloat,
    stripChars, splitOnChar, parseUnsignedFloat, digitsNat, pyWhitespace,
    pyStrip, strOrNone, fill_gap, fill_if_none, drop_if_zero_coord,
    c1_env_bad, c1_tags, get_lat, get_lon, get_datetime, get_make,
    get_model]
  norm_num

/-! ### C7: resolution never raises -/

/-- C7: for every behaviour of the three strategies — header-parse
exceptions, malformed or missing sidecar files, decoder failures —
`read_photo_meta` never raises: in the exception monad its result is
always `Except.ok` of the record the pure merge produces. -/
theorem c7_never_raises (env : Env) (stem suffix : String) :
    read_photo_meta_exc env stem suffix
      = Except.ok (read_photo_meta env stem suffix) := rfl

end Photomap
